import Mathlib

/-!
A shallow embedding of the PlantCare durable object's storage layer
(src/agents-starter/src/server.ts) together with the guarded tool layer
(src/tools.ts).  SQL tables are lists of rows in insertion order; TEXT
timestamps are modelled as rational instants (SQLite's julianday returns a
fractional day count, and ISO-8601 strings compare chronologically);
CURRENT_TIMESTAMP and new Date() become explicit `now` parameters; the
values produced by generateId become explicit id parameters.  A statement
that raises a SQLite constraint error (primary key, or the enforced
foreign keys with ON DELETE CASCADE) is modelled as `Except.error`, with
the state unchanged, since the thrown exception aborts the method.
-/

namespace PlantCompanion

/-- A row of the `plants` table. -/
structure Plant where
  id : String
  name : String
  type : String
  location : Option String
  light_requirement : Option String
  water_frequency_days : Int
  last_watered : Option ℚ
  notes : Option String
  created_at : ℚ
  deriving DecidableEq

/-- A row of the `watering_history` table. -/
structure WateringEvent where
  id : String
  plant_id : String
  watered_at : ℚ
  notes : Option String
  deriving DecidableEq

/-- A row of the `health_issues` table. -/
structure HealthIssue where
  id : String
  plant_id : String
  issue_description : String
  diagnosis : Option String
  resolved : Bool
  created_at : ℚ
  resolved_at : Option ℚ
  deriving DecidableEq

/-- The three tables created by initializeDatabase. -/
structure StoreState where
  plants : List Plant
  watering_history : List WateringEvent
  health_issues : List HealthIssue
  deriving DecidableEq

/-- The freshly initialized database: all three tables empty. -/
def initState : StoreState := ⟨[], [], []⟩

/-- SQLite constraint violations surfaced as thrown exceptions. -/
inductive DbError where
  | primaryKeyViolation
  | foreignKeyViolation
  deriving DecidableEq

/-- JavaScript `x || null` on an optional string: undefined and the empty
string both collapse to null. -/
def jsOrNull : Option String → Option String
  | some s => if s = "" then none else some s
  | none => none

/-- JavaScript `x || d` on an optional integer: undefined and 0 both fall
back to the default `d`. -/
def jsOrDefault (x : Option Int) (d : Int) : Int :=
  match x with
  | none => d
  | some n => if n = 0 then d else n

/-- getPlant: SELECT * FROM plants WHERE id = ?, then result[0] || null. -/
def getPlant (s : StoreState) (plantId : String) : Option Plant :=
  (s.plants.filter (fun p => p.id == plantId)).head?

/-- The argument record of addPlant (optional fields are JS optionals). -/
structure AddPlantArgs where
  id : String
  name : String
  type : String
  location : Option String
  lightRequirement : Option String
  waterFrequencyDays : Option Int
  notes : Option String
  deriving DecidableEq

/-- The row inserted by addPlant: location/lightRequirement/notes go
through `|| null`, waterFrequencyDays through `|| 7`, last_watered is not
in the column list so it is NULL, created_at defaults to
CURRENT_TIMESTAMP. -/
def mkPlant (a : AddPlantArgs) (now : ℚ) : Plant :=
  { id := a.id
    name := a.name
    type := a.type
    location := jsOrNull a.location
    light_requirement := jsOrNull a.lightRequirement
    water_frequency_days := jsOrDefault a.waterFrequencyDays 7
    last_watered := none
    notes := jsOrNull a.notes
    created_at := now }

/-- addPlant: INSERT INTO plants ... (primary-key violation if the id is
already present), then return this.getPlant(plant.id). -/
def addPlant (s : StoreState) (a : AddPlantArgs) (now : ℚ) :
    Except DbError (StoreState × Option Plant) :=
  if s.plants.any (fun p => p.id == a.id) then
    .error .primaryKeyViolation
  else
    let s1 : StoreState := { s with plants := s.plants ++ [mkPlant a now] }
    .ok (s1, getPlant s1 a.id)

/-- The record returned by waterPlant. -/
structure WaterResult where
  wateringId : String
  plantId : String
  wateredAt : ℚ
  deriving DecidableEq

/-- waterPlant: INSERT INTO watering_history (id, plant_id, watered_at,
notes) — the foreign key requires the plant to exist — then UPDATE plants
SET last_watered = now WHERE id = ?, and return the result record. -/
def waterPlant (s : StoreState) (plantId : String) (notes : Option String)
    (wateringId : String) (now : ℚ) :
    Except DbError (StoreState × WaterResult) :=
  if s.watering_history.any (fun e => e.id == wateringId) then
    .error .primaryKeyViolation
  else if !(s.plants.any (fun p => p.id == plantId)) then
    .error .foreignKeyViolation
  else
    let e : WateringEvent := ⟨wateringId, plantId, now, jsOrNull notes⟩
    let plants1 := s.plants.map fun p =>
      if p.id == plantId then { p with last_watered := some now } else p
    .ok ({ s with watering_history := s.watering_history ++ [e], plants := plants1 },
      ⟨wateringId, plantId, now⟩)

/-- getWateringHistory: SELECT * FROM watering_history WHERE plant_id = ?
ORDER BY watered_at DESC LIMIT ?. -/
def getWateringHistory (s : StoreState) (plantId : String) (limit : Nat) :
    List WateringEvent :=
  (((s.watering_history.filter (fun e => e.plant_id == plantId)).insertionSort
    (fun a b => b.watered_at ≤ a.watered_at)).take limit)

/-- The record returned by recordHealthIssue. -/
structure HealthResult where
  issueId : String
  plantId : String
  deriving DecidableEq

/-- recordHealthIssue: INSERT INTO health_issues (id, plant_id,
issue_description, diagnosis) — resolved defaults to 0, created_at to
CURRENT_TIMESTAMP, resolved_at to NULL; diagnosis goes through `|| null`;
the foreign key requires the plant to exist. -/
def recordHealthIssue (s : StoreState) (plantId : String)
    (issueDescription : String) (diagnosis : Option String)
    (issueId : String) (now : ℚ) :
    Except DbError (StoreState × HealthResult) :=
  if s.health_issues.any (fun i => i.id == issueId) then
    .error .primaryKeyViolation
  else if !(s.plants.any (fun p => p.id == plantId)) then
    .error .foreignKeyViolation
  else
    let i : HealthIssue :=
      ⟨issueId, plantId, issueDescription, jsOrNull diagnosis, false, now, none⟩
    .ok ({ s with health_issues := s.health_issues ++ [i] }, ⟨issueId, plantId⟩)

/-- getHealthIssues: SELECT * FROM health_issues WHERE plant_id = ?
(AND resolved = 0 unless includeResolved) ORDER BY created_at DESC. -/
def getHealthIssues (s : StoreState) (plantId : String)
    (includeResolved : Bool) : List HealthIssue :=
  let rows :=
    if includeResolved then
      s.health_issues.filter (fun i => i.plant_id == plantId)
    else
      s.health_issues.filter (fun i => i.plant_id == plantId && i.resolved == false)
  rows.insertionSort (fun a b => b.created_at ≤ a.created_at)

/-- isDue: the WHERE clause of getPlantsNeedingWater — last_watered IS
NULL OR julianday(now) - julianday(last_watered) >= water_frequency_days
(a fractional-day comparison, no truncation). -/
def isDue (now : ℚ) (p : Plant) : Bool :=
  match p.last_watered with
  | none => true
  | some t => decide ((p.water_frequency_days : ℚ) ≤ now - t)

/-- The ORDER BY last_watered ASC order on nullable timestamps: SQLite
sorts NULL before every non-NULL value in ascending order. -/
def lwLE : Option ℚ → Option ℚ → Prop
  | none, _ => True
  | some _, none => False
  | some a, some b => a ≤ b

instance lwLE.decRel : DecidableRel lwLE
  | none, _ => isTrue trivial
  | some _, none => isFalse (fun h => h)
  | some a, some b => inferInstanceAs (Decidable (a ≤ b))

/-- The row order produced by ORDER BY last_watered ASC. -/
def dueOrder (p q : Plant) : Prop := lwLE p.last_watered q.last_watered

instance : DecidableRel dueOrder := fun p q => lwLE.decRel _ _

instance : IsTotal Plant dueOrder where
  total p q := by
    unfold dueOrder
    cases p.last_watered <;> cases q.last_watered <;> simp [lwLE]
    exact le_total _ _

instance : IsTrans Plant dueOrder where
  trans p q r h1 h2 := by
    unfold dueOrder at *
    cases hp : p.last_watered <;> cases hq : q.last_watered <;>
      cases hr : r.last_watered <;> simp_all [lwLE]
    exact le_trans h1 h2

/-- getPlantsNeedingWater: SELECT * FROM plants WHERE last_watered IS NULL
OR julianday(now) - julianday(last_watered) >= water_frequency_days
ORDER BY last_watered ASC. -/
def getPlantsNeedingWater (s : StoreState) (now : ℚ) : List Plant :=
  (s.plants.filter (isDue now)).insertionSort dueOrder

/-- removePlant: read the plant; if absent return null; otherwise DELETE
FROM plants WHERE id = ?, which cascades to watering_history and
health_issues via ON DELETE CASCADE, and return the removed plant. -/
def removePlant (s : StoreState) (plantId : String) :
    Option Plant × StoreState :=
  match getPlant s plantId with
  | none => (none, s)
  | some plant =>
    (some plant,
      { plants := s.plants.filter (fun p => !(p.id == plantId))
        watering_history := s.watering_history.filter (fun e => !(e.plant_id == plantId))
        health_issues := s.health_issues.filter (fun i => !(i.plant_id == plantId)) })

/-- The updates record of updatePlant: a field is pushed into the UPDATE
statement exactly when it is not undefined. -/
structure UpdatePlantArgs where
  name : Option String
  type : Option String
  location : Option String
  lightRequirement : Option String
  waterFrequencyDays : Option Int
  notes : Option String
  deriving DecidableEq

/-- No field of the updates record is defined (fields.length === 0). -/
def UpdatePlantArgs.isEmpty (u : UpdatePlantArgs) : Bool :=
  u.name.isNone && u.type.isNone && u.location.isNone &&
  u.lightRequirement.isNone && u.waterFrequencyDays.isNone && u.notes.isNone

/-- The effect of the generated UPDATE statement on one row: each defined
field overwrites the column (updatePlant writes the provided value
directly, with no `|| null` coercion). -/
def applyUpdates (u : UpdatePlantArgs) (p : Plant) : Plant :=
  { p with
    name := u.name.getD p.name
    type := u.type.getD p.type
    location := match u.location with | none => p.location | some v => some v
    light_requirement :=
      match u.lightRequirement with | none => p.light_requirement | some v => some v
    water_frequency_days := u.waterFrequencyDays.getD p.water_frequency_days
    notes := match u.notes with | none => p.notes | some v => some v }

/-- updatePlant: read the plant (null if absent); with no defined updates
return it unchanged; otherwise UPDATE plants SET ... WHERE id = ? and
return this.getPlant(plantId). -/
def updatePlant (s : StoreState) (plantId : String) (u : UpdatePlantArgs) :
    Option Plant × StoreState :=
  match getPlant s plantId with
  | none => (none, s)
  | some plant =>
    if u.isEmpty then (some plant, s)
    else
      let s1 : StoreState :=
        { s with plants := s.plants.map fun p =>
            if p.id == plantId then applyUpdates u p else p }
      (getPlant s1 plantId, s1)

/-- The value a tool call produces for the chat layer: the not-found
message, a success payload, or a caught database error string. -/
inductive ToolRes (α : Type) where
  | notFound
  | ok (a : α)
  | err (e : DbError)
  deriving DecidableEq

/-- The waterPlant tool (tools.ts): look the plant up first and answer
not-found without touching the tables; otherwise call waterPlant, turning
a thrown error into an error result. -/
def waterPlantTool (s : StoreState) (plantId : String) (notes : Option String)
    (wateringId : String) (now : ℚ) : ToolRes WaterResult × StoreState :=
  match getPlant s plantId with
  | none => (.notFound, s)
  | some _ =>
    match waterPlant s plantId notes wateringId now with
    | .error e => (.err e, s)
    | .ok (s1, r) => (.ok r, s1)

/-- The getWateringHistory tool (tools.ts): plant looked up first,
not-found answered without reading history. -/
def getWateringHistoryTool (s : StoreState) (plantId : String) (limit : Nat) :
    ToolRes (List WateringEvent) × StoreState :=
  match getPlant s plantId with
  | none => (.notFound, s)
  | some _ => (.ok (getWateringHistory s plantId limit), s)

/-- The diagnosePlantIssue tool (tools.ts): plant looked up first; on
success the symptoms are recorded with no diagnosis text. -/
def diagnosePlantIssueTool (s : StoreState) (plantId : String)
    (symptoms : String) (issueId : String) (now : ℚ) :
    ToolRes HealthResult × StoreState :=
  match getPlant s plantId with
  | none => (.notFound, s)
  | some _ =>
    match recordHealthIssue s plantId symptoms none issueId now with
    | .error e => (.err e, s)
    | .ok (s1, r) => (.ok r, s1)

/-- The viewHealthIssues tool (tools.ts): plant looked up first. -/
def viewHealthIssuesTool (s : StoreState) (plantId : String)
    (includeResolved : Bool) : ToolRes (List HealthIssue) × StoreState :=
  match getPlant s plantId with
  | none => (.notFound, s)
  | some _ => (.ok (getHealthIssues s plantId includeResolved), s)

/-- One state-changing call of the tool layer, with the nondeterministic
inputs (ids, clock readings) made explicit. -/
inductive Op where
  | add (a : AddPlantArgs) (now : ℚ)
  | water (plantId : String) (notes : Option String) (wateringId : String) (now : ℚ)
  | remove (plantId : String)
  | update (plantId : String) (u : UpdatePlantArgs)
  | diagnose (plantId : String) (symptoms : String) (issueId : String) (now : ℚ)
  deriving DecidableEq

/-- The state reached after one tool call (a thrown constraint error
leaves the state unchanged). -/
def applyOp (s : StoreState) : Op → StoreState
  | .add a now =>
    match addPlant s a now with
    | .ok (s1, _) => s1
    | .error _ => s
  | .water pid notes wid now => (waterPlantTool s pid notes wid now).2
  | .remove pid => (removePlant s pid).2
  | .update pid u => (updatePlant s pid u).2
  | .diagnose pid sym iid now => (diagnosePlantIssueTool s pid sym iid now).2

/-- The state reached from the fresh database by a sequence of calls. -/
def runOps (ops : List Op) : StoreState := ops.foldl applyOp initState

/-- Modelled from the spec: a trigger specification of the
ScheduleManager — an absolute instant, a relative delay, or a recurring
cron-like expression (abstracted as a fixed period); the scheduling
engine itself is provided by the hosting platform and is not under
src/. -/
inductive Trigger where
  | atTime (t : ℚ)
  | afterDelay (d : ℚ)
  | cron (period : ℚ)
  deriving DecidableEq

/-- Modelled from the spec: an active Reminder entry with its derived
next-fire-time. -/
structure Reminder where
  id : String
  plantId : String
  description : String
  trigger : Trigger
  nextFire : ℚ
  deriving DecidableEq

/-- Modelled from the spec: the ScheduleManager's state, the sequence of
active (scheduled, not yet cancelled or terminally fired) reminders. -/
structure ScheduleState where
  reminders : List Reminder
  deriving DecidableEq

/-- Modelled from the spec: the initial next-fire-time a trigger
defines when scheduled at instant `now`. -/
def initialFire (tr : Trigger) (now : ℚ) : ℚ :=
  match tr with
  | .atTime t => t
  | .afterDelay d => now + d
  | .cron p => now + p

/-- Modelled from the spec: schedule(trigger, description) appends a new
Reminder carrying its computed next-fire-time. -/
def scheduleReminder (m : ScheduleState) (rid plantId description : String)
    (tr : Trigger) (now : ℚ) : ScheduleState :=
  ⟨m.reminders ++ [⟨rid, plantId, description, tr, initialFire tr now⟩]⟩

/-- Modelled from the spec: cancel(id) removes the reminder and reports
ok, or reports NotFound when no active reminder has that id. -/
def cancelReminder (m : ScheduleState) (rid : String) : Bool × ScheduleState :=
  if m.reminders.any (fun r => r.id == rid) then
    (true, ⟨m.reminders.filter (fun r => !(r.id == rid))⟩)
  else
    (false, m)

/-- Modelled from the spec: the first occurrence of a recurring trigger
strictly after `asOf`, one period at least past the current fire time. -/
def nextOccurrenceAfter (t p asOf : ℚ) : ℚ :=
  if 0 < p then t + p * ((⌊(asOf - t) / p⌋ : ℚ) + 1) else asOf + 1

/-- Modelled from the spec: dueReminders(asOf) returns every reminder
whose next-fire-time is at most asOf; one-off reminders are removed after
being returned, recurring ones have their next-fire-time advanced to the
first occurrence strictly after asOf. -/
def dueReminders (m : ScheduleState) (asOf : ℚ) :
    List Reminder × ScheduleState :=
  let due := m.reminders.filter (fun r => decide (r.nextFire ≤ asOf))
  let rest := m.reminders.filter (fun r => !(decide (r.nextFire ≤ asOf)))
  let advanced := due.filterMap fun r =>
    match r.trigger with
    | .cron p => some { r with nextFire := nextOccurrenceAfter r.nextFire p asOf }
    | _ => none
  (due, ⟨rest ++ advanced⟩)

/-- Modelled from the spec: the firings reported by a sequence of
dueReminders polls, threading the mutated state. -/
def fireSeq (m : ScheduleState) : List ℚ → List Reminder
  | [] => []
  | t :: ts => (dueReminders m t).1 ++ fireSeq (dueReminders m t).2 ts

/-- Every stored health issue is unresolved with a NULL resolved_at: the
state of a freshly recorded issue, which no operation of the code ever
changes. -/
def IssuesClean (s : StoreState) : Prop :=
  ∀ i ∈ s.health_issues, i.resolved = false ∧ i.resolved_at = none

/-- No active reminder carries the given id. -/
def NoId (m : ScheduleState) (rid : String) : Prop :=
  ∀ r ∈ m.reminders, r.id ≠ rid

lemma head?_filter_eq_some {α} {q : α → Bool} {l : List α} {a : α}
    (h : (l.filter q).head? = some a) : a ∈ l ∧ q a = true := by
  have ha : a ∈ l.filter q := List.mem_of_mem_head? (by simp [h])
  exact ⟨(List.mem_filter.mp ha).1, (List.mem_filter.mp ha).2⟩

lemma getPlant_eq_some {s : StoreState} {pid : String} {p : Plant}
    (h : getPlant s pid = some p) : p ∈ s.plants ∧ p.id = pid := by
  unfold getPlant at h
  have := head?_filter_eq_some h
  simpa using this

lemma any_id_of_getPlant {s : StoreState} {pid : String} {p : Plant}
    (h : getPlant s pid = some p) :
    s.plants.any (fun q => q.id == pid) = true := by
  obtain ⟨hm, hid⟩ := getPlant_eq_some h
  exact List.any_eq_true.mpr ⟨p, hm, by simp [hid]⟩

lemma filter_map_id_preserving {f : Plant → Plant}
    (hf : ∀ q, (f q).id = q.id) (pid : String) (l : List Plant) :
    (l.map f).filter (fun q => q.id == pid) =
      (l.filter (fun q => q.id == pid)).map f := by
  induction l with
  | nil => simp
  | cons x l ih =>
    by_cases hx : (x.id == pid) = true
    · simp [List.filter_cons, hf, hx, ih]
    · simp [List.filter_cons, hf, hx, ih]

lemma head?_filter_map {f : Plant → Plant}
    (hf : ∀ q, (f q).id = q.id) (pid : String) (l : List Plant) :
    ((l.map f).filter (fun q => q.id == pid)).head? =
      ((l.filter (fun q => q.id == pid)).head?).map f := by
  rw [filter_map_id_preserving hf, List.head?_map]

lemma addPlant_fresh {s : StoreState} {a : AddPlantArgs} {now : ℚ}
    (h : s.plants.all (fun p => !(p.id == a.id)) = true) :
    addPlant s a now =
      .ok ({ s with plants := s.plants ++ [mkPlant a now] },
        some (mkPlant a now)) := by
  have hany : s.plants.any (fun p => p.id == a.id) = false := by
    rw [List.any_eq_false]
    intro p hp
    have := List.all_eq_true.mp h p hp
    simpa using this
  have hfil : s.plants.filter (fun p => p.id == a.id) = [] := by
    rw [List.filter_eq_nil_iff]
    intro p hp
    have := List.all_eq_true.mp h p hp
    simpa using this
  unfold addPlant
  rw [hany]
  unfold getPlant
  simp [List.filter_append, hfil, mkPlant]

lemma filter_filter_not_nil {α} (q r : α → Bool) (l : List α)
    (himp : ∀ x, r x = true → q x = true) :
    (l.filter (fun x => !(q x))).filter r = [] := by
  rw [List.filter_eq_nil_iff]
  intro x hx hr
  have h1 : (!(q x)) = true := (List.mem_filter.mp hx).2
  have h2 : q x = true := himp x hr
  simp [h2] at h1

/-- C1: a plant of the store is returned by getPlantsNeedingWater exactly
when it has never been watered or the elapsed time since its last
watering, measured in (fractional) days, is at least its
water_frequency_days; in particular a never-watered plant is always
returned. -/
theorem getPlantsNeedingWater_mem_iff (s : StoreState) (now : ℚ) (P : Plant)
    (hP : P ∈ s.plants) :
    P ∈ getPlantsNeedingWater s now ↔
      (P.last_watered = none ∨
        ∃ t, P.last_watered = some t ∧
          (P.water_frequency_days : ℚ) ≤ now - t) := by
  unfold getPlantsNeedingWater
  rw [List.mem_insertionSort, List.mem_filter]
  cases hlw : P.last_watered with
  | none => simp [isDue, hlw, hP]
  | some t => simp [isDue, hlw, hP]

/-- Witness for C1: a plant last watered at day 2 with frequency 7 is
listed at day 10. -/
theorem getPlantsNeedingWater_mem_iff_witness :
    (⟨("p1"), ("F"), ("Fern"), none, none, 7, some 2, none, 0⟩ : Plant) ∈
      (⟨[⟨("p1"), ("F"), ("Fern"), none, none, 7, some 2, none, 0⟩], [], []⟩ :
        StoreState).plants ∧
    ((⟨("p1"), ("F"), ("Fern"), none, none, 7, some 2, none, 0⟩ : Plant) ∈
        getPlantsNeedingWater
          ⟨[⟨("p1"), ("F"), ("Fern"), none, none, 7, some 2, none, 0⟩], [], []⟩ 10 ↔
      ((⟨("p1"), ("F"), ("Fern"), none, none, 7, some 2, none, 0⟩ : Plant).last_watered = none ∨
        ∃ t, (⟨("p1"), ("F"), ("Fern"), none, none, 7, some 2, none, 0⟩ : Plant).last_watered = some t ∧
          ((⟨("p1"), ("F"), ("Fern"), none, none, 7, some 2, none, 0⟩ : Plant).water_frequency_days : ℚ) ≤ 10 - t)) :=
  ⟨by decide, getPlantsNeedingWater_mem_iff _ 10 _ (by decide)⟩

/-- C6: the rows returned by getPlantsNeedingWater are pairwise ordered
by last_watered ascending, every NULL last_watered row coming before
every non-NULL one (ORDER BY last_watered ASC under SQLite's NULL-first
ascending order). -/
theorem getPlantsNeedingWater_sorted (s : StoreState) (now : ℚ) :
    List.Pairwise (fun p q => lwLE p.last_watered q.last_watered)
      (getPlantsNeedingWater s now) :=
  List.sorted_insertionSort dueOrder _

/-- Counterexample for C2: addPlant with empty name, empty type and a
negative waterFrequencyDays raises no ValidationError — the row is
inserted as given (with the negative frequency stored) and the created
record is returned. -/
theorem addPlant_accepts_invalid_cex :
    addPlant initState ⟨("p1"), (""), (""), none, none, some (-3), none⟩ 0 =
      .ok (⟨[⟨("p1"), (""), (""), none, none, -3, none, none, 0⟩], [], []⟩,
        some ⟨("p1"), (""), (""), none, none, -3, none, none, 0⟩) := by
  rfl

/-- C2 (amended): addPlant performs no validation at all — any name, type
and waterFrequencyDays are accepted; when the id is fresh the row is
inserted (waterFrequencyDays 0/omitted replaced by the default 7 and the
optional strings put through the JS falsy coercion) and the created Plant
record is returned to the caller. -/
theorem addPlant_no_validation (s : StoreState) (a : AddPlantArgs) (now : ℚ)
    (h : s.plants.all (fun p => !(p.id == a.id)) = true) :
    addPlant s a now =
      .ok ({ s with plants := s.plants ++ [mkPlant a now] },
        some (mkPlant a now)) :=
  addPlant_fresh h

/-- Witness for C2 (amended): an invalid record (empty name and type,
negative frequency) is stored and returned. -/
theorem addPlant_no_validation_witness :
    addPlant initState ⟨("p2"), (""), (""), none, none, some (-9), none⟩ 3 =
      .ok ({ initState with plants := initState.plants ++
          [mkPlant ⟨("p2"), (""), (""), none, none, some (-9), none⟩ 3] },
        some (mkPlant ⟨("p2"), (""), (""), none, none, some (-9), none⟩ 3)) :=
  addPlant_no_validation initState _ 3 (by decide)

/-- C10: for a fresh id, a waterFrequencyDays of 0 or omitted is silently
replaced by the default 7, while any nonzero value — negative values
included — is stored unchanged. -/
theorem addPlant_waterFrequency_default (s : StoreState) (a : AddPlantArgs)
    (now : ℚ) (h : s.plants.all (fun p => !(p.id == a.id)) = true) :
    ∃ s1 p, addPlant s a now = .ok (s1, some p) ∧
      ((a.waterFrequencyDays = none ∨ a.waterFrequencyDays = some 0) →
        p.water_frequency_days = 7) ∧
      (∀ n : Int, a.waterFrequencyDays = some n → n ≠ 0 →
        p.water_frequency_days = n) := by
  refine ⟨_, _, addPlant_fresh h, ?_, ?_⟩
  · rintro (h0 | h0) <;> simp [mkPlant, jsOrDefault, h0]
  · intro n hn hn0
    simp [mkPlant, jsOrDefault, hn, hn0]

/-- Witness for C10: a plant added with waterFrequencyDays 0 is stored
with the default 7. -/
theorem addPlant_waterFrequency_default_witness :
    ∃ s1 p,
      addPlant initState ⟨("p3"), ("F"), ("Fern"), none, none, some 0, none⟩ 1 =
        .ok (s1, some p) ∧ p.water_frequency_days = 7 := by
  obtain ⟨s1, p, heq, h0, -⟩ :=
    addPlant_waterFrequency_default initState
      ⟨("p3"), ("F"), ("Fern"), none, none, some 0, none⟩ 1 (by decide)
  exact ⟨s1, p, heq, h0 (Or.inr rfl)⟩

/-- Counterexample for C3: on a store holding one plant with frequency 7,
updatePlant with waterFrequencyDays -1 returns the updated plant (no
ValidationError) and the stored record's frequency is changed to -1. -/
theorem updatePlant_negative_cex :
    updatePlant
        ⟨[⟨("p1"), ("Fernie"), ("Boston Fern"), none, none, 7, none, none, 0⟩], [], []⟩
        ("p1") ⟨none, none, none, none, some (-1), none⟩ =
      (some ⟨("p1"), ("Fernie"), ("Boston Fern"), none, none, -1, none, none, 0⟩,
        ⟨[⟨("p1"), ("Fernie"), ("Boston Fern"), none, none, -1, none, none, 0⟩], [], []⟩) := by
  rfl

/-- C3 (amended): for every existing plant id,
updatePlant(id, waterFrequencyDays := -1) performs no validation: it
stores -1 into the plant's water_frequency_days (leaving all other
fields unchanged) and returns the updated record. -/
theorem updatePlant_negative_frequency_stored (s : StoreState) (pid : String)
    (p : Plant) (h : getPlant s pid = some p) :
    updatePlant s pid ⟨none, none, none, none, some (-1), none⟩ =
      (some { p with water_frequency_days := -1 },
        { s with plants := s.plants.map fun q =>
            if q.id == pid then { q with water_frequency_days := -1 } else q }) := by
  have hpid : (p.id == pid) = true := by
    simp [(getPlant_eq_some h).2]
  have hf : ∀ q : Plant,
      ((fun q => if q.id == pid then
          applyUpdates ⟨none, none, none, none, some (-1), none⟩ q else q) q).id = q.id := by
    intro q
    by_cases hq : (q.id == pid) = true <;> simp [hq, applyUpdates]
  unfold updatePlant
  rw [h]
  have hempty : (⟨none, none, none, none, some (-1), none⟩ : UpdatePlantArgs).isEmpty = false := rfl
  rw [hempty]
  simp only [Bool.false_eq_true, if_false]
  have h1 : getPlant
      { s with plants := s.plants.map fun q =>
          if q.id == pid then
            applyUpdates ⟨none, none, none, none, some (-1), none⟩ q else q } pid =
      some (applyUpdates ⟨none, none, none, none, some (-1), none⟩ p) := by
    unfold getPlant
    rw [head?_filter_map hf]
    have hh : (s.plants.filter (fun q => q.id == pid)).head? = some p := h
    rw [hh]
    simp [(getPlant_eq_some h).2]
  rw [h1]
  rfl

/-- Witness for C3 (amended): applied to a concrete one-plant store. -/
theorem updatePlant_negative_frequency_stored_witness :
    updatePlant
        ⟨[⟨("q1"), ("Ivy"), ("Pothos"), none, none, 5, none, none, 0⟩], [], []⟩
        ("q1") ⟨none, none, none, none, some (-1), none⟩ =
      (some { (⟨("q1"), ("Ivy"), ("Pothos"), none, none, 5, none, none, 0⟩ : Plant) with
          water_frequency_days := -1 },
        { (⟨[⟨("q1"), ("Ivy"), ("Pothos"), none, none, 5, none, none, 0⟩], [], []⟩ : StoreState) with
          plants := [⟨("q1"), ("Ivy"), ("Pothos"), none, none, 5, none, none, 0⟩].map fun q =>
            if q.id == ("q1") then { q with water_frequency_days := -1 } else q }) :=
  updatePlant_negative_frequency_stored _ _ _ (by decide)

/-- C4: removePlant returns the removed Plant when the id exists and null
otherwise (leaving the store untouched); after a successful removal the
plant is gone and its watering history and health issues are empty for
every limit and for both includeResolved values — the plant row and both
dependent tables are cleared in the one deletion step (the cascade). -/
theorem removePlant_cascade (s : StoreState) (pid : String) :
    (removePlant s pid).1 = getPlant s pid ∧
    (getPlant s pid = none → (removePlant s pid).2 = s) ∧
    (∀ p, getPlant s pid = some p →
      (∀ n, getWateringHistory (removePlant s pid).2 pid n = []) ∧
      (∀ b, getHealthIssues (removePlant s pid).2 pid b = []) ∧
      getPlant (removePlant s pid).2 pid = none) := by
  unfold removePlant
  cases hg : getPlant s pid with
  | none => simp
  | some p0 =>
    refine ⟨rfl, by simp, ?_⟩
    intro p hp
    refine ⟨?_, ?_, ?_⟩
    · intro n
      unfold getWateringHistory
      simp only
      rw [filter_filter_not_nil _ _ _ (fun x h => h)]
      simp [List.insertionSort]
    · intro b
      unfold getHealthIssues
      cases b with
      | true =>
        simp only [if_true]
        rw [filter_filter_not_nil _ _ _ (fun x h => h)]
        simp [List.insertionSort]
      | false =>
        simp only [Bool.false_eq_true, if_false]
        rw [filter_filter_not_nil _ _ _
          (fun x h => (Bool.and_eq_true _ _ |>.mp h).1)]
        simp [List.insertionSort]
    · unfold getPlant
      simp only
      rw [filter_filter_not_nil _ _ _ (fun x h => h)]
      rfl

/-- Witness for C4: a store holding one plant, one watering event and one
health issue for it; after removal everything for that id is empty. -/
theorem removePlant_cascade_witness :
    getWateringHistory
      (removePlant
        ⟨[⟨("p1"), ("F"), ("Fern"), none, none, 7, some 1, none, 0⟩],
          [⟨("w1"), ("p1"), 1, none⟩],
          [⟨("h1"), ("p1"), ("spots"), none, false, 1, none⟩]⟩ ("p1")).2 ("p1") 10 = [] ∧
    getHealthIssues
      (removePlant
        ⟨[⟨("p1"), ("F"), ("Fern"), none, none, 7, some 1, none, 0⟩],
          [⟨("w1"), ("p1"), 1, none⟩],
          [⟨("h1"), ("p1"), ("spots"), none, false, 1, none⟩]⟩ ("p1")).2 ("p1") true = [] ∧
    getPlant
      (removePlant
        ⟨[⟨("p1"), ("F"), ("Fern"), none, none, 7, some 1, none, 0⟩],
          [⟨("w1"), ("p1"), 1, none⟩],
          [⟨("h1"), ("p1"), ("spots"), none, false, 1, none⟩]⟩ ("p1")).2 ("p1") = none := by
  obtain ⟨-, -, h3⟩ := removePlant_cascade
    ⟨[⟨("p1"), ("F"), ("Fern"), none, none, 7, some 1, none, 0⟩],
      [⟨("w1"), ("p1"), 1, none⟩],
      [⟨("h1"), ("p1"), ("spots"), none, false, 1, none⟩]⟩ ("p1")
  obtain ⟨hw, hh, hp⟩ :=
    h3 ⟨("p1"), ("F"), ("Fern"), none, none, 7, some 1, none, 0⟩ (by decide)
  exact ⟨hw 10, hh true, hp⟩

/-- C5: for an existing plant and a fresh watering-event id, waterPlant
succeeds, the returned event carries the current timestamp, and reading
the plant back immediately shows last_watered equal to that timestamp —
both writes land in the one returned state. -/
theorem waterPlant_roundTrip (s : StoreState) (pid : String)
    (notes : Option String) (wid : String) (now : ℚ) (p : Plant)
    (hp : getPlant s pid = some p)
    (hw : s.watering_history.all (fun e => !(e.id == wid)) = true) :
    ∃ s1 r, waterPlant s pid notes wid now = .ok (s1, r) ∧
      r.wateredAt = now ∧ r.plantId = pid ∧ r.wateringId = wid ∧
      ∃ p1, getPlant s1 pid = some p1 ∧
        p1.last_watered = some r.wateredAt := by
  have hwany : s.watering_history.any (fun e => e.id == wid) = false := by
    rw [List.any_eq_false]
    intro e he
    have := List.all_eq_true.mp hw e he
    simpa using this
  have hpany : s.plants.any (fun q => q.id == pid) = true :=
    any_id_of_getPlant hp
  have hf : ∀ q : Plant,
      ((fun q => if q.id == pid then { q with last_watered := some now } else q) q).id
        = q.id := by
    intro q
    by_cases hq : (q.id == pid) = true <;> simp [hq]
  unfold waterPlant
  rw [hwany, hpany]
  simp only [Bool.false_eq_true, if_false, Bool.not_true, reduceIte]
  refine ⟨_, _, rfl, rfl, rfl, rfl, ?_⟩
  refine ⟨{ p with last_watered := some now }, ?_, rfl⟩
  unfold getPlant
  simp only
  rw [head?_filter_map hf]
  have hh : (s.plants.filter (fun q => q.id == pid)).head? = some p := hp
  rw [hh]
  simp [(getPlant_eq_some hp).2]

/-- Witness for C5: watering the one stored plant at time 4 round-trips
the timestamp into last_watered. -/
theorem waterPlant_roundTrip_witness :
    ∃ s1 r,
      waterPlant ⟨[⟨("p1"), ("F"), ("Fern"), none, none, 7, none, none, 0⟩], [], []⟩
          ("p1") none ("w1") 4 = .ok (s1, r) ∧
      r.wateredAt = 4 ∧ r.plantId = ("p1") ∧ r.wateringId = ("w1") ∧
      ∃ p1, getPlant s1 ("p1") = some p1 ∧
        p1.last_watered = some r.wateredAt :=
  waterPlant_roundTrip _ _ none _ 4
    ⟨("p1"), ("F"), ("Fern"), none, none, 7, none, none, 0⟩ (by decide) (by decide)

/-- C7: when the id references no stored plant, each plant-id operation of
the tool layer (waterPlant, getWateringHistory, diagnosePlantIssue,
viewHealthIssues) and of the store (removePlant, updatePlant) returns its
not-found marker — null for the store methods — and leaves the state
exactly as it was, with no exception escaping. -/
theorem unknownId_notFound (s : StoreState) (pid : String)
    (h : getPlant s pid = none) :
    (∀ notes wid now, waterPlantTool s pid notes wid now = (.notFound, s)) ∧
    removePlant s pid = (none, s) ∧
    (∀ u, updatePlant s pid u = (none, s)) ∧
    (∀ n, getWateringHistoryTool s pid n = (.notFound, s)) ∧
    (∀ sym iid now, diagnosePlantIssueTool s pid sym iid now = (.notFound, s)) ∧
    (∀ b, viewHealthIssuesTool s pid b = (.notFound, s)) := by
  refine ⟨fun notes wid now => ?_, ?_, fun u => ?_, fun n => ?_,
    fun sym iid now => ?_, fun b => ?_⟩ <;>
    simp [waterPlantTool, removePlant, updatePlant, getWateringHistoryTool,
      diagnosePlantIssueTool, viewHealthIssuesTool, h]

/-- Witness for C7: the fresh empty store and an unknown id. -/
theorem unknownId_notFound_witness :
    waterPlantTool initState ("ghost") none ("w1") 0 = (.notFound, initState) ∧
    removePlant initState ("ghost") = (none, initState) ∧
    updatePlant initState ("ghost") ⟨none, none, none, none, some 3, none⟩ =
      (none, initState) ∧
    getWateringHistoryTool initState ("ghost") 10 = (.notFound, initState) ∧
    diagnosePlantIssueTool initState ("ghost") ("wilt") ("i1") 0 =
      (.notFound, initState) ∧
    viewHealthIssuesTool initState ("ghost") true = (.notFound, initState) := by
  obtain ⟨h1, h2, h3, h4, h5, h6⟩ := unknownId_notFound initState ("ghost") (by decide)
  exact ⟨h1 none ("w1") 0, h2, h3 _, h4 10, h5 ("wilt") ("i1") 0, h6 true⟩

lemma health_issues_addPlant (s : StoreState) (a : AddPlantArgs) (now : ℚ) :
    (applyOp s (.add a now)).health_issues = s.health_issues := by
  simp only [applyOp, addPlant]
  by_cases hc : (s.plants.any fun p => p.id == a.id) = true
  · simp [hc]
  · simp [hc]

lemma health_issues_waterPlantTool (s : StoreState) (pid : String)
    (notes : Option String) (wid : String) (now : ℚ) :
    (waterPlantTool s pid notes wid now).2.health_issues = s.health_issues := by
  unfold waterPlantTool waterPlant
  cases getPlant s pid with
  | none => rfl
  | some p0 =>
    cases h1 : s.watering_history.any (fun e => e.id == wid) with
    | true => rfl
    | false =>
      cases h2 : s.plants.any (fun q => q.id == pid) with
      | true => rfl
      | false => rfl

lemma health_issues_removePlant_sub (s : StoreState) (pid : String) :
    ∀ i ∈ (removePlant s pid).2.health_issues, i ∈ s.health_issues := by
  unfold removePlant
  cases getPlant s pid with
  | none => intro i hi; exact hi
  | some p0 => intro i hi; exact List.mem_of_mem_filter hi

lemma health_issues_updatePlant (s : StoreState) (pid : String)
    (u : UpdatePlantArgs) :
    (updatePlant s pid u).2.health_issues = s.health_issues := by
  unfold updatePlant
  cases getPlant s pid with
  | none => rfl
  | some p0 =>
    cases hu : u.isEmpty with
    | true => rfl
    | false => rfl

lemma mem_health_diagnose (s : StoreState) (pid sym iid : String) (now : ℚ) :
    ∀ i ∈ (diagnosePlantIssueTool s pid sym iid now).2.health_issues,
      i ∈ s.health_issues ∨ (i.resolved = false ∧ i.resolved_at = none) := by
  unfold diagnosePlantIssueTool recordHealthIssue
  cases getPlant s pid with
  | none => intro i hi; exact .inl hi
  | some p0 =>
    cases h1 : s.health_issues.any (fun j => j.id == iid) with
    | true => intro i hi; exact .inl hi
    | false =>
      cases h2 : s.plants.any (fun q => q.id == pid) with
      | false => intro i hi; exact .inl hi
      | true =>
        intro i hi
        rcases List.mem_append.mp hi with hm | hm
        · exact .inl hm
        · right
          have : i = ⟨iid, pid, sym, jsOrNull none, false, now, none⟩ := by
            simpa using hm
          rw [this]
          exact ⟨rfl, rfl⟩

lemma issuesClean_applyOp {s : StoreState} (h : IssuesClean s) (op : Op) :
    IssuesClean (applyOp s op) := by
  cases op with
  | add a now =>
    intro i hi
    rw [health_issues_addPlant] at hi
    exact h i hi
  | water pid notes wid now =>
    intro i hi
    simp only [applyOp] at hi
    rw [health_issues_waterPlantTool] at hi
    exact h i hi
  | remove pid =>
    intro i hi
    simp only [applyOp] at hi
    exact h i (health_issues_removePlant_sub s pid i hi)
  | update pid u =>
    intro i hi
    simp only [applyOp] at hi
    rw [health_issues_updatePlant] at hi
    exact h i hi
  | diagnose pid sym iid now =>
    intro i hi
    simp only [applyOp] at hi
    rcases mem_health_diagnose s pid sym iid now i hi with hm | hc
    · exact h i hm
    · exact hc

lemma issuesClean_foldl :
    ∀ (ops : List Op) (s : StoreState), IssuesClean s →
      IssuesClean (ops.foldl applyOp s)
  | [], _, h => h
  | op :: ops, s, h => issuesClean_foldl ops _ (issuesClean_applyOp h op)

/-- C8: in every state reachable from the fresh database through the tool
operations, a stored health issue has resolved_at set exactly when its
resolved flag is true — in fact no operation of the code ever resolves an
issue, so both sides stay false, and resolved_at is never set at all. -/
theorem healthIssue_resolvedAt_iff (ops : List Op) (i : HealthIssue)
    (h : i ∈ (runOps ops).health_issues) :
    (i.resolved_at ≠ none ↔ i.resolved = true) := by
  have hc := issuesClean_foldl ops initState (fun j hj => by cases hj) i h
  simp [hc.1, hc.2]

/-- Witness for C8: the issue recorded by a diagnose call after adding a
plant. -/
theorem healthIssue_resolvedAt_iff_witness :
    (⟨("i1"), ("p1"), ("browning"), none, false, 1, none⟩ : HealthIssue) ∈
      (runOps ([Op.add ⟨("p1"), ("F"), ("Fern"), none, none, none, none⟩ 0,
        Op.diagnose ("p1") ("browning") ("i1") 1] : List Op)).health_issues ∧
    ((⟨("i1"), ("p1"), ("browning"), none, false, 1, none⟩ : HealthIssue).resolved_at ≠ none ↔
      (⟨("i1"), ("p1"), ("browning"), none, false, 1, none⟩ : HealthIssue).resolved = true) := by
  refine ⟨?_, healthIssue_resolvedAt_iff
    ([Op.add ⟨("p1"), ("F"), ("Fern"), none, none, none, none⟩ 0,
      Op.diagnose ("p1") ("browning") ("i1") 1]) _ ?_⟩ <;> decide

lemma noId_cancel (m : ScheduleState) (rid : String) :
    NoId (cancelReminder m rid).2 rid := by
  unfold cancelReminder
  cases hc : m.reminders.any (fun r => r.id == rid) with
  | true =>
    intro r hr
    have := (List.mem_filter.mp hr).2
    simpa using this
  | false =>
    intro r hr
    have := List.any_eq_false.mp hc r hr
    simpa using this

lemma noId_dueReminders {m : ScheduleState} {rid : String}
    (h : NoId m rid) (t : ℚ) :
    (∀ r ∈ (dueReminders m t).1, r.id ≠ rid) ∧
      NoId (dueReminders m t).2 rid := by
  constructor
  · intro r hr
    exact h r (List.mem_of_mem_filter hr)
  · intro r hr
    rcases List.mem_append.mp hr with h1 | h1
    · exact h r (List.mem_of_mem_filter h1)
    · rcases List.mem_filterMap.mp h1 with ⟨r0, hr0, hmap⟩
      have hid : r.id = r0.id := by
        rcases ht : r0.trigger with t0 | d | per <;> simp [ht] at hmap
        rw [← hmap]
      rw [hid]
      exact h r0 (List.mem_of_mem_filter hr0)

lemma noId_fireSeq (rid : String) :
    ∀ (ts : List ℚ) (m : ScheduleState), NoId m rid →
      ∀ r ∈ fireSeq m ts, r.id ≠ rid
  | [], _, _ => by intro r hr; cases hr
  | t :: ts, m, h => by
    intro r hr
    rcases List.mem_append.mp hr with h1 | h1
    · exact (noId_dueReminders h t).1 r h1
    · exact noId_fireSeq rid ts _ (noId_dueReminders h t).2 r h1

/-- C9: once a reminder id has been cancelled, no sequence of dueReminders
polls — at any instants, arbitrarily far past the reminder's trigger —
ever reports a firing with that id. -/
theorem cancelledReminder_neverFires (m : ScheduleState) (rid : String)
    (ts : List ℚ) (r : Reminder)
    (h : r ∈ fireSeq (cancelReminder m rid).2 ts) : r.id ≠ rid :=
  noId_fireSeq rid ts (cancelReminder m rid).2 (noId_cancel m rid) r h

/-- Witness for C9: of two reminders due at time 0, cancelling the first
leaves exactly the second to fire in a poll at time 5. -/
theorem cancelledReminder_neverFires_witness :
    (⟨("b"), ("p1"), ("water"), .atTime 0, 0⟩ : Reminder) ∈
      fireSeq (cancelReminder
        (⟨[⟨("a"), ("p1"), ("water"), .atTime 0, 0⟩,
          ⟨("b"), ("p1"), ("water"), .atTime 0, 0⟩]⟩ : ScheduleState) ("a")).2 [5] ∧
    (⟨("b"), ("p1"), ("water"), .atTime 0, 0⟩ : Reminder).id ≠ ("a") := by
  refine ⟨?_, cancelledReminder_neverFires
    (⟨[⟨("a"), ("p1"), ("water"), .atTime 0, 0⟩,
      ⟨("b"), ("p1"), ("water"), .atTime 0, 0⟩]⟩ : ScheduleState)
    ("a") [5] _ ?_⟩ <;> decide

end PlantCompanion
